import Mathlib

/-!
Verification development for the Social-Poster backend (src/app.py).

The service orchestrates staged image generation: an optional background
synthesis stage (Stage 1), a composite synthesis stage (Stage 2), and a
verify-and-repair loop driven by a secondary judge model.  External model
calls (generative model, judge model) are black-box network services; they are
modelled by oracles giving the outcome of the n-th call.  Raw image bytes
are modelled as lists of naturals.  Everything else (retry loops, caching,
prompt assembly, response construction, fail-open handling) is translated
directly from the source.
-/

/-- Raw byte strings (image payloads). -/
abbrev Bytes := List Nat

/-- MAX_GENERATION_ATTEMPTS from app.py line 19. -/
def MAX_GENERATION_ATTEMPTS : Nat := 3

/-- MAX_VERIFICATION_RETRIES from app.py line 20. -/
def MAX_VERIFICATION_RETRIES : Nat := 2

/-- One part of a model response; inline_data is the image payload when
present (google.genai response part). -/
structure GenPart where
  inline_data : Option Bytes
deriving Repr, DecidableEq

/-- Outcome of one call to the generative model: either the client raised,
or a response with a list of parts came back (an empty list also models a
response with no candidates). -/
inductive CallResult where
  | raises (msg : String)
  | response (parts : List GenPart)
deriving Repr, DecidableEq

/-- The first part of a response that carries inline image data, as scanned
by the for-loops over response.candidates[0].content.parts. -/
def firstInlineData (parts : List GenPart) : Option Bytes :=
  parts.findSome? (fun p => p.inline_data)

/-- The terminal error message built by generate_with_retry (app.py 547);
Python prints a missing last error as None. -/
def failMessage (maxAttempts : Nat) (lastError : Option String) : String :=
  "Failed after " ++ toString maxAttempts ++ " attempts: " ++
    (match lastError with
     | none => "None"
     | some s => s)

/-- Loop body of generate_with_retry (app.py 516-547).  remaining counts the
attempts left, attempt the attempts already made (it indexes the oracle and
doubles as the number of generative-service invocations so far).  Returns
the result (ok image, or error message after exhaustion) together with the
total number of generative-service invocations made. -/
def gwrAux (oracle : Nat → CallResult) (maxAttempts : Nat) :
    Nat → Nat → Option String → Except String Bytes × Nat
  | 0, attempt, lastError => (Except.error (failMessage maxAttempts lastError), attempt)
  | Nat.succ rem, attempt, lastError =>
    match oracle attempt with
    | CallResult.raises msg => gwrAux oracle maxAttempts rem (attempt + 1) (some msg)
    | CallResult.response parts =>
      match firstInlineData parts with
      | some d => (Except.ok d, attempt + 1)
      | none => gwrAux oracle maxAttempts rem (attempt + 1) (some "No image in response")

/-- generate_with_retry (app.py 516-547): retry the generative call up to
maxAttempts times; the Python function returns either (data, None) or
(None, message), rendered here as an Except, paired with the number of
service invocations performed. -/
def generate_with_retry (oracle : Nat → CallResult) (maxAttempts : Nat) :
    Except String Bytes × Nat :=
  gwrAux oracle maxAttempts maxAttempts 0 none

/-- clean_json_text (app.py 28-39): strip Markdown fences from a judge
response before JSON parsing; empty text becomes the empty JSON object. -/
def clean_json_text (text : String) : String :=
  if text = "" then "\x7b\x7d"
  else
    let t0 := text.trim
    let t1 := if t0.startsWith "```json" then t0.drop 7 else t0
    let t2 := if t1.startsWith "```" then t1.drop 3 else t1
    let t3 := if t2.endsWith "```" then t2.dropRight 3 else t2
    t3.trim

/-- The fields of a parsed judge response that the gates read: the "pass"
field and the "issues" field, each possibly absent. -/
structure JsonObj where
  pass : Option Bool
  issues : Option (List String)
deriving Repr, DecidableEq

/-- Outcome of one judge-model call: the client raised, or response text
came back. -/
inductive JudgeOutcome where
  | raises (msg : String)
  | returns (text : String)
deriving Repr, DecidableEq

/-- verify_generation (app.py 550-584).  The comparison prompt sent to the
judge does not influence the modelled response, so it is elided; parse
stands for json.loads, returning none whenever parsing fails or the parsed
value is not an object (both raise in Python and are caught by the same
except-branch).  Any call or parse failure yields (true, []); a parsed
object yields its "pass" field defaulting to false and its "issues" field
defaulting to []. -/
def verify_generation (parse : String → Option JsonObj) (outcome : JudgeOutcome) :
    Bool × List String :=
  match outcome with
  | JudgeOutcome.raises _ => (true, [])
  | JudgeOutcome.returns text =>
    match parse (clean_json_text text) with
    | none => (true, [])
    | some result => (result.pass.getD false, result.issues.getD [])

/-- verify_background_reproduction (app.py 363-403): same structure as
verify_generation but only the "pass" field is read; failure of the call or
of parsing yields true (assume OK). -/
def verify_background_reproduction (parse : String → Option JsonObj)
    (outcome : JudgeOutcome) : Bool :=
  match outcome with
  | JudgeOutcome.raises _ => true
  | JudgeOutcome.returns text =>
    match parse (clean_json_text text) with
    | none => true
    | some result => result.pass.getD false

/-- build_composition_instruction (app.py 587-594). -/
def build_composition_instruction (orientation : String) : String :=
  if orientation = "flat_lay" then
    "COMPOSITION: Top-down flat lay. Camera directly above, looking straight down. Product lies flat on horizontal surface. Center product, fill 50-60% of frame. Background as continuous horizontal plane. Soft contact shadow beneath."
  else if orientation = "standing" then
    "COMPOSITION: Standing product shot. Camera at eye level or slightly elevated. Product stands upright with depth perspective - background recedes behind. Center product, fill 50-60% of frame height. Natural contact shadow at base."
  else
    "COMPOSITION: Natural angle matching reference. Center product, fill 50-60% of frame. Background visible with appropriate perspective. Soft contact shadow."

/-- build_v1_prompt (app.py 718-764). -/
def build_v1_prompt (lighting_prompt : String) (detail_labels : List String)
    (background_description product_dimensions orientation visible_text : String)
    (has_master : Bool) (master_style : String) : String :=
  let rolesStart : List String × Nat :=
    if has_master then
      (["REFERENCE IMAGES:",
        "Image 1 = STYLE REFERENCE. Match this image\x27s lighting quality, color temperature, shadow character, and overall photographic style.",
        "Image 2 = PRODUCT. Reproduce this exact object with complete fidelity."], 3)
    else
      (["REFERENCE IMAGES:",
        "Image 1 = PRODUCT. Reproduce this exact object with complete fidelity - every shape, color, texture, material, marking exactly as shown."], 2)
  let roles := rolesStart.1 ++
    detail_labels.enum.map (fun p => "Image " ++ toString (rolesStart.2 + p.1) ++ " = DETAIL: " ++ p.2)
  let s0 := [String.intercalate " " roles]
  let s1 := if has_master then
      (if master_style = "" then s0
       else s0 ++ ["STYLE MATCHING: Replicate this photographic style: " ++ master_style])
    else s0
  let s2 := s1 ++ [build_composition_instruction orientation]
  let s3 := if background_description = "" then s2
    else
      let bg0 := "BACKGROUND: " ++ background_description
      let bg1 := if product_dimensions = "" then bg0
        else bg0 ++ " Product is ~" ++ product_dimensions ++ " - scale background proportionally. Tile seamlessly if needed."
      s2 ++ [bg1]
  let s4 := if lighting_prompt = "" then s3 else s3 ++ [lighting_prompt]
  let s5 := if visible_text = "" then s4 else s4 ++ ["PRESERVE TEXT: " ++ visible_text]
  let s6 := s5 ++ ["OUTPUT: Authentic studio photograph. Natural depth of field, real textures, unified lighting. Full-frame camera, 90mm lens, f/8."]
  String.intercalate "\n\n" s6

/-- build_stage2_prompt (app.py 977-1025). -/
def build_stage2_prompt (detail_labels : List String) (lighting_prompt : String)
    (material_scale product_dimensions orientation visible_text : String)
    (has_master : Bool) (master_style : String) : String :=
  let rolesStart : List String × Nat :=
    if has_master then
      (["REFERENCE IMAGES:",
        "Image 1 = STYLE REFERENCE. Match this photographic style.",
        "Image 2 = BACKGROUND. Keep exactly as shown including all markings.",
        "Image 3 = PRODUCT. Reproduce exactly, place on background."], 4)
    else
      (["REFERENCE IMAGES:",
        "Image 1 = BACKGROUND. Keep exactly, including all text/markings.",
        "Image 2 = PRODUCT. Reproduce exactly, place on background."], 3)
  let roles := rolesStart.1 ++
    detail_labels.enum.map (fun p => "Image " ++ toString (rolesStart.2 + p.1) ++ " = DETAIL: " ++ p.2)
  let s0 := [String.intercalate " " roles]
  let s1 := if has_master then
      (if master_style = "" then s0 else s0 ++ ["MATCH STYLE: " ++ master_style])
    else s0
  let s2 := s1 ++ [build_composition_instruction orientation]
  let s3 :=
    if product_dimensions ≠ "" ∧ material_scale ≠ "" then
      s2 ++ ["SCALE: Product ~" ++ product_dimensions ++ ". Background: " ++ material_scale ++ ". Realistic proportions."]
    else if product_dimensions ≠ "" then
      s2 ++ ["SCALE: Product ~" ++ product_dimensions ++ "."]
    else s2
  let s4 := if lighting_prompt = "" then
      s3 ++ ["LIGHTING: Even studio light on both product and background."]
    else
      s3 ++ [lighting_prompt ++ " Apply to both product and background - unified shadows and color temperature."]
  let s5 := if visible_text = "" then s4 else s4 ++ ["PRESERVE: " ++ visible_text]
  let s6 := s5 ++ ["OUTPUT: Authentic photograph. Natural depth of field, real textures, unified lighting."]
  String.intercalate "\n\n" s6

/-- One element of a contents list sent to the generative model: a
reference image (types.Part.from_bytes) or the trailing instruction text. -/
inductive ContentPart where
  | img (data : Bytes) (mime : String)
  | text (s : String)
deriving Repr, DecidableEq

/-- Python list mutation xs[-1] = p on the content-parts list. -/
def setLast (xs : List ContentPart) (p : ContentPart) : List ContentPart :=
  xs.dropLast ++ [p]

/-- The repair suffix added by the V1 loop (app.py 705). -/
def v1FixSuffix (issues : List String) : String :=
  "\n\nFIX THESE ISSUES: " ++ String.intercalate ", " issues

/-- The repair suffix added by the V2 loop (app.py 964). -/
def v2FixSuffix (issues : List String) : String :=
  "\n\nFIX: " ++ String.intercalate ", " issues

/-- A JSON HTTP response as assembled by the endpoints; absent keys are
none.  status is the HTTP status code (Flask defaults to 200 when the
handler returns only a body). -/
structure HttpResponse where
  status : Nat
  message : Option String := none
  image : Option Bytes := none
  warnings : Option (List String) := none
  error : Option String := none
  background_id : Option String := none
  cached : Option Bool := none
deriving Repr, DecidableEq

/-- Trace of one run of a verify-and-repair loop: the HTTP response, the
number of Stage-2 generation runs (generate_with_retry invocations), the
images passed to the verification gate in order, and the content-parts list
used by each Stage-2 run in order. -/
structure LoopTrace where
  response : HttpResponse
  stage2Runs : Nat
  verifiedImgs : List Bytes
  history : List (List ContentPart)
deriving Repr, DecidableEq

/-- Verify-and-repair loop of generate_studio_image (app.py 686-711).
left is the number of repair rounds still allowed (MAX_VERIFICATION_RETRIES
minus the current verify_attempt), k the current verify_attempt; stage k
gives the result of the k-th generate_with_retry call and judge k the
verdict of the k-th verify_generation call. -/
def v1LoopAux (stage : Nat → Except String Bytes) (judge : Nat → Bool × List String)
    (genPrompt : String) :
    Nat → Nat → List ContentPart → List (List ContentPart) → List Bytes → LoopTrace
  | left, k, parts, hist, ver =>
    let hist1 := hist ++ [parts]
    match stage k with
    | Except.error e => ⟨{ status := 500, error := some e }, k + 1, ver, hist1⟩
    | Except.ok generated =>
      let pj := judge k
      let ver1 := ver ++ [generated]
      if pj.1 then
        ⟨{ status := 200, message := some "Image generated successfully",
           image := some generated }, k + 1, ver1, hist1⟩
      else
        match left with
        | Nat.succ left1 =>
          v1LoopAux stage judge genPrompt left1 (k + 1)
            (setLast parts (ContentPart.text (genPrompt ++ v1FixSuffix pj.2))) hist1 ver1
        | 0 =>
          ⟨{ status := 200, message := some "Generated with potential issues",
             image := some generated, warnings := some pj.2 }, k + 1, ver1, hist1⟩

/-- The V1 verify loop started on the assembled content parts
(reference images followed by the instruction block, app.py 659-686). -/
def v1VerifyLoop (stage : Nat → Except String Bytes) (judge : Nat → Bool × List String)
    (genPrompt : String) (refParts : List ContentPart) : LoopTrace :=
  v1LoopAux stage judge genPrompt MAX_VERIFICATION_RETRIES 0
    (refParts ++ [ContentPart.text genPrompt]) [] []

/-- Verify-and-repair loop of generate_studio_image_v2 (app.py 941-970).
On a generation error it returns the Stage-1 background as a 200
"Partial - background only" response; on bound exhaustion the return after
the loop carries the last image and the last issues as warnings. -/
def v2LoopAux (stage : Nat → Except String Bytes) (judge : Nat → Bool × List String)
    (stage2Prompt : String) (stage1Image : Bytes) :
    Nat → Nat → List ContentPart → List (List ContentPart) → List Bytes → LoopTrace
  | left, k, parts, hist, ver =>
    let hist1 := hist ++ [parts]
    match stage k with
    | Except.error _ =>
      ⟨{ status := 200, message := some "Partial - background only",
         image := some stage1Image, warnings := some ["Composite failed"] }, k + 1, ver, hist1⟩
    | Except.ok generated =>
      let pj := judge k
      let ver1 := ver ++ [generated]
      if pj.1 then
        ⟨{ status := 200, message := some "Success", image := some generated },
         k + 1, ver1, hist1⟩
      else
        match left with
        | Nat.succ left1 =>
          v2LoopAux stage judge stage2Prompt stage1Image left1 (k + 1)
            (setLast parts (ContentPart.text (stage2Prompt ++ v2FixSuffix pj.2))) hist1 ver1
        | 0 =>
          ⟨{ status := 200, message := some "Generated with issues",
             image := some generated, warnings := some pj.2 }, k + 1, ver1, hist1⟩

/-- The V2 Stage-2 verify loop started on the assembled stage2 parts
(app.py 909-941). -/
def v2VerifyLoop (stage : Nat → Except String Bytes) (judge : Nat → Bool × List String)
    (stage2Prompt : String) (stage1Image : Bytes) (refParts : List ContentPart) : LoopTrace :=
  v2LoopAux stage judge stage2Prompt stage1Image MAX_VERIFICATION_RETRIES 0
    (refParts ++ [ContentPart.text stage2Prompt]) [] []

/-- An entry of BACKGROUND_CACHE (app.py 24, 343-347). -/
structure BgEntry where
  image : Bytes
  description : String
  scale : String
deriving Repr, DecidableEq

/-- An entry of MASTER_CACHE (app.py 25, 453-458). -/
structure MasterEntry where
  image : Bytes
  lighting : String
  background : String
  style : String
deriving Repr, DecidableEq

/-- The in-memory caches are Python dicts keyed by cache id; modelled as
association lists where insertion shadows older bindings. -/
abbrev BgCache := List (String × BgEntry)

abbrev MasterCache := List (String × MasterEntry)

/-- Dictionary lookup: key in cache, cache[key]. -/
def cacheLookup {α : Type} (c : List (String × α)) (k : String) : Option α :=
  (c.find? (fun p => p.1 == k)).map Prod.snd

/-- Dictionary write cache[key] = value. -/
def cacheInsert {α : Type} (c : List (String × α)) (k : String) (v : α) :
    List (String × α) :=
  (k, v) :: c

/-- generate_cache_id (app.py 42-45): the md5 hexdigest truncated to 12
characters is an external library computation, abstracted as the digest
parameter; the function prepends the namespace to the digest of the
bytes. -/
def generate_cache_id (digest : Bytes → String) (data_bytes : Bytes) (pfx : String) : String :=
  pfx ++ digest data_bytes

/-- The fields of the pregeneration analysis response that the endpoint
reads (app.py 291, 326, 343-346), with the .get defaults applied. -/
structure AnalysisInfo where
  description : String
  material_scale : String
  has_text : Bool
deriving Repr, DecidableEq

/-- Scan of response.candidates[0].content.parts in pregenerate_background
(app.py 322-331): each part carrying inline data is verified in order; the
first verified one is returned.  vc numbers the verification calls made so
far and is threaded through. -/
def scanParts (ver : Nat → Bool) : List GenPart → Nat → Option Bytes × Nat
  | [], vc => (none, vc)
  | p :: rest, vc =>
    match p.inline_data with
    | none => scanParts ver rest vc
    | some d => if ver vc then (some d, vc + 1) else scanParts ver rest (vc + 1)

/-- Attempt loop of pregenerate_background (app.py 310-337): up to
MAX_GENERATION_ATTEMPTS generative calls, exceptions swallowed per attempt.
Returns the verified background (if any), the number of generative-service
invocations, and the number of verification calls. -/
def pregenLoopAux (gen : Nat → CallResult) (ver : Nat → Bool) :
    Nat → Nat → Nat → Option Bytes × Nat × Nat
  | 0, attempt, vc => (none, attempt, vc)
  | Nat.succ rem, attempt, vc =>
    match gen attempt with
    | CallResult.raises _ => pregenLoopAux gen ver rem (attempt + 1) vc
    | CallResult.response parts =>
      match scanParts ver parts vc with
      | (some d, vc1) => (some d, attempt + 1, vc1)
      | (none, vc1) => pregenLoopAux gen ver rem (attempt + 1) vc1

/-- Trace of one call to the pregenerate-background endpoint: response,
resulting BACKGROUND_CACHE, generative-model invocations and analysis-model
invocations performed. -/
structure PregenTrace where
  response : HttpResponse
  cache : BgCache
  genCalls : Nat
  analysisCalls : Nat
deriving Repr, DecidableEq

/-- pregenerate_background (app.py 237-360).  digest abstracts the md5
fingerprint, analysisResult the outcome of the analysis call (error when
the call or its JSON parsing raises), gen/ver the generation attempts and
background verifications.  A cache hit returns the stored image without any
model call; a fresh generation is cached under the fingerprint of the
uploaded bytes. -/
def pregenerate_background (digest : Bytes → String)
    (analysisResult : Except String AnalysisInfo)
    (gen : Nat → CallResult) (ver : Nat → Bool)
    (cache : BgCache) (bg_image_bytes : Bytes) : PregenTrace :=
  let bg_id := generate_cache_id digest bg_image_bytes "bg_"
  match cacheLookup cache bg_id with
  | some cached =>
    ⟨{ status := 200, message := some "Background retrieved from cache",
       background_id := some bg_id, image := some cached.image, cached := some true },
     cache, 0, 0⟩
  | none =>
    match analysisResult with
    | Except.error e => ⟨{ status := 500, error := some e }, cache, 0, 1⟩
    | Except.ok analysis =>
      match pregenLoopAux gen ver MAX_GENERATION_ATTEMPTS 0 0 with
      | (none, calls, _) =>
        ⟨{ status := 500, error := some "Failed to generate background" }, cache, calls, 1⟩
      | (some generated_bg, calls, _) =>
        ⟨{ status := 200, message := some "Background pre-generated successfully",
           background_id := some bg_id, image := some generated_bg, cached := some false },
         cacheInsert cache bg_id ⟨generated_bg, analysis.description, analysis.material_scale⟩,
         calls, 1⟩

/-- quality clamping (app.py 254, 651-652, 851-852). -/
def clamp_quality (quality fallback : String) : String :=
  if quality = "1K" ∨ quality = "2K" then quality else fallback

/-- Trace of generate_v1_internal: response, the content parts it sent, the
generation prompt it built, and the number of generate_with_retry
invocations (always one; it performs no verification). -/
structure FallbackTrace where
  response : HttpResponse
  parts : List ContentPart
  genPrompt : String
  stage2Runs : Nat
deriving Repr, DecidableEq

/-- generate_v1_internal (app.py 1028-1055): single generate_with_retry
call on master?/product/details plus the V1 prompt; 500 on error, else a
200 Success response with the image.  No verification gate is invoked. -/
def generate_v1_internal (stageResult : Except String Bytes)
    (main_bytes : Bytes) (main_mime : String) (prompt quality : String)
    (detail_images : List (Bytes × String)) (detail_labels : List String)
    (bg_desc dims orientation visible_text : String)
    (master_image : Option Bytes) (master_style : String) : FallbackTrace :=
  let base :=
    (match master_image with
     | some m => [ContentPart.img m "image/png"]
     | none => []) ++
    [ContentPart.img main_bytes main_mime] ++
    detail_images.map (fun d => ContentPart.img d.1 d.2)
  let generation_prompt := build_v1_prompt prompt detail_labels bg_desc dims orientation
    visible_text master_image.isSome master_style
  let content_parts := base ++ [ContentPart.text generation_prompt]
  match stageResult with
  | Except.error e => ⟨{ status := 500, error := some e }, content_parts, generation_prompt, 1⟩
  | Except.ok d =>
    ⟨{ status := 200, message := some "Success", image := some d },
     content_parts, generation_prompt, 1⟩

/-- A parsed V1 request (request.files / request.form with the .get
defaults already applied by the web framework).  details holds
(bytes, mime, label) triples for detail1..3. -/
structure V1Request where
  image : Option (Bytes × String)
  prompt : String
  quality : String
  backgroundDescription : String
  productDimensions : String
  orientation : String
  visibleText : String
  masterId : String
  masterImageFile : Option Bytes
  masterStyle : String
  details : List (Bytes × String × String)
deriving Repr, DecidableEq

/-- Trace of a full endpoint run: the response, the number of Stage-1
generative calls, the verify-loop trace when the loop ran, and the
generate_v1_internal trace when the fallback ran. -/
structure EndpointTrace where
  response : HttpResponse
  stage1GenCalls : Nat
  loopTrace : Option LoopTrace
  fallbackTrace : Option FallbackTrace
deriving Repr, DecidableEq

/-- Master resolution shared by both endpoints (app.py 623-638, 825-838):
a non-empty masterId found in MASTER_CACHE wins, otherwise an uploaded
masterImage file with the masterStyle form field. -/
def resolveMaster (mc : MasterCache) (masterId : String)
    (masterImageFile : Option Bytes) (masterStyle : String) : Option (Bytes × String) :=
  let fromCache :=
    if masterId ≠ "" then (cacheLookup mc masterId).map (fun m => (m.image, m.style))
    else none
  match fromCache with
  | some m => some m
  | none => masterImageFile.map (fun mb => (mb, masterStyle))

/-- generate_studio_image (app.py 601-715): the V1 endpoint.  stage k is
the outcome of the k-th generate_with_retry call, judge k the verdict of
the k-th verify_generation call. -/
def generate_studio_image (req : V1Request) (mc : MasterCache)
    (stage : Nat → Except String Bytes) (judge : Nat → Bool × List String) :
    EndpointTrace :=
  match req.image with
  | none => ⟨{ status := 400, error := some "No reference image provided" }, 0, none, none⟩
  | some (main_image_bytes, main_mime) =>
    let master := resolveMaster mc req.masterId req.masterImageFile req.masterStyle
    let detail_images := req.details.map (fun d => (d.1, d.2.1))
    let detail_labels := req.details.map (fun d => d.2.2)
    let content_base :=
      (match master with
       | some m => [ContentPart.img m.1 "image/png"]
       | none => []) ++
      [ContentPart.img main_image_bytes main_mime] ++
      detail_images.map (fun d => ContentPart.img d.1 d.2)
    let generation_prompt := build_v1_prompt req.prompt detail_labels
      req.backgroundDescription req.productDimensions req.orientation req.visibleText
      master.isSome (match master with | some m => m.2 | none => "")
    let lt := v1VerifyLoop stage judge generation_prompt content_base
    ⟨lt.response, 0, some lt, none⟩

/-- A parsed V2 request. -/
structure V2Request where
  image : Option (Bytes × String)
  prompt : String
  quality : String
  lightingPrompt : String
  backgroundDescription : String
  materialScale : String
  productDimensions : String
  orientation : String
  visibleText : String
  backgroundId : String
  backgroundImageFile : Option (Bytes × String)
  cachedBackgroundFile : Option (Bytes × String)
  masterId : String
  masterImageFile : Option Bytes
  masterStyle : String
  details : List (Bytes × String × String)
deriving Repr, DecidableEq

/-- Stage 1 of the V2 endpoint (app.py 891-898): up to
MAX_GENERATION_ATTEMPTS rounds, each one generate_with_retry call with
max_attempts=1 followed (when it yielded bytes) by one background
verification.  rem are the rounds left, attempt the current round index
(doubling as generative calls made), vc the verification calls made.
Returns the verified background (if any) and the generative calls made. -/
def v2Stage1Loop (gen : Nat → CallResult) (ver : Nat → Bool) :
    Nat → Nat → Nat → Option Bytes × Nat
  | 0, attempt, _ => (none, attempt)
  | Nat.succ rem, attempt, vc =>
    match (generate_with_retry (fun _ => gen attempt) 1).1 with
    | Except.ok stage1_bytes =>
      if ver vc then (some stage1_bytes, attempt + 1)
      else v2Stage1Loop gen ver rem (attempt + 1) (vc + 1)
    | Except.error _ => v2Stage1Loop gen ver rem (attempt + 1) vc

/-- generate_studio_image_v2 (app.py 771-974): background resolution
(cached id, uploaded file, or iOS-cached file), V1 fallback when there is
no background image or Stage 1 exhausts, otherwise Stage 1 (skipped for a
cached background), Stage-2 part assembly and the verify loop.  s1gen/s1ver
drive Stage 1, stage2/judge drive the verify loop, fallbackStage the single
generation of generate_v1_internal. -/
def generate_studio_image_v2 (req : V2Request) (bc : BgCache) (mc : MasterCache)
    (s1gen : Nat → CallResult) (s1ver : Nat → Bool)
    (stage2 : Nat → Except String Bytes) (judge : Nat → Bool × List String)
    (fallbackStage : Except String Bytes) : EndpointTrace :=
  match req.image with
  | none => ⟨{ status := 400, error := some "No reference image provided" }, 0, none, none⟩
  | some (main_image_bytes, main_mime) =>
    let cachedData : Option BgEntry :=
      if req.backgroundId ≠ "" then cacheLookup bc req.backgroundId else none
    let cached_background : Option Bytes := cachedData.map (fun cd => cd.image)
    let background_description :=
      match cachedData with
      | some cd => if req.backgroundDescription = "" then cd.description
                   else req.backgroundDescription
      | none => req.backgroundDescription
    let material_scale :=
      match cachedData with
      | some cd => if req.materialScale = "" then cd.scale else req.materialScale
      | none => req.materialScale
    let bgWithFile : Option (Bytes × String) :=
      match cached_background with
      | some b => some (b, "image/png")
      | none => req.backgroundImageFile
    let background : Option (Bytes × String) :=
      match bgWithFile with
      | some x => some x
      | none => req.cachedBackgroundFile
    let master := resolveMaster mc req.masterId req.masterImageFile req.masterStyle
    let master_style := match master with | some m => m.2 | none => ""
    let detail_images := req.details.map (fun d => (d.1, d.2.1))
    let detail_labels := req.details.map (fun d => d.2.2)
    let quality := clamp_quality req.quality "1K"
    match background with
    | none =>
      let ft := generate_v1_internal fallbackStage main_image_bytes main_mime req.prompt
        quality detail_images detail_labels background_description req.productDimensions
        req.orientation req.visibleText (master.map Prod.fst) master_style
      ⟨ft.response, 0, none, some ft⟩
    | some _ =>
      let s1res :=
        match cached_background with
        | some cb => (some cb, 0)
        | none => v2Stage1Loop s1gen s1ver MAX_GENERATION_ATTEMPTS 0 0
      match s1res.1 with
      | none =>
        let ft := generate_v1_internal fallbackStage main_image_bytes main_mime req.prompt
          quality detail_images detail_labels background_description req.productDimensions
          req.orientation req.visibleText (master.map Prod.fst) master_style
        ⟨ft.response, s1res.2, none, some ft⟩
      | some stage1_image =>
        let stage2_base :=
          (match master with
           | some m => [ContentPart.img m.1 "image/png"]
           | none => []) ++
          [ContentPart.img stage1_image "image/png"] ++
          [ContentPart.img main_image_bytes main_mime] ++
          detail_images.map (fun d => ContentPart.img d.1 d.2)
        let stage2_prompt := build_stage2_prompt detail_labels
          (if req.lightingPrompt ≠ "" then req.lightingPrompt else req.prompt)
          material_scale req.productDimensions req.orientation req.visibleText
          master.isSome master_style
        let lt := v2VerifyLoop stage2 judge stage2_prompt stage1_image stage2_base
        ⟨lt.response, s1res.2, some lt, none⟩


/-! ## Helper lemmas -/

/-- A generative call outcome that yields no image: the client raised, or
the response carried no inline image data. -/
def callFails : CallResult → Prop
  | CallResult.raises _ => True
  | CallResult.response parts => firstInlineData parts = none

theorem gwrAux_allFail (oracle : Nat → CallResult) (m : Nat)
    (hf : ∀ n, callFails (oracle n)) :
    ∀ rem attempt e, ∃ msg,
      gwrAux oracle m rem attempt e = (Except.error msg, attempt + rem) := by
  intro rem
  induction rem with
  | zero => intro attempt e; exact ⟨failMessage m e, by simp [gwrAux]⟩
  | succ rem ih =>
    intro attempt e
    cases h : oracle attempt with
    | raises msg =>
      obtain ⟨msg2, h2⟩ := ih (attempt + 1) (some msg)
      refine ⟨msg2, ?_⟩
      simp only [gwrAux, h, h2]
      congr 1
      omega
    | response parts =>
      have hpf : firstInlineData parts = none := by
        have := hf attempt
        rwa [h] at this
      obtain ⟨msg2, h2⟩ := ih (attempt + 1) (some "No image in response")
      refine ⟨msg2, ?_⟩
      simp only [gwrAux, h, hpf, h2]
      congr 1
      omega

/-! ## Claims -/

/-- C6: for a generative service call that deterministically fails (raises
or returns no image), generate_with_retry invokes the service exactly
MAX_GENERATION_ATTEMPTS (3) times and then reports failure with an
error message. -/
theorem claim_C6_retry_bound (oracle : Nat → CallResult)
    (hf : ∀ n, callFails (oracle n)) :
    (generate_with_retry oracle MAX_GENERATION_ATTEMPTS).2 = MAX_GENERATION_ATTEMPTS ∧
    MAX_GENERATION_ATTEMPTS = 3 ∧
    ∃ msg, (generate_with_retry oracle MAX_GENERATION_ATTEMPTS).1 = Except.error msg := by
  obtain ⟨msg, h⟩ :=
    gwrAux_allFail oracle MAX_GENERATION_ATTEMPTS hf MAX_GENERATION_ATTEMPTS 0 none
  refine ⟨?_, rfl, msg, ?_⟩ <;> simp [generate_with_retry, h]

/-- C6 witness: an always-raising service is called exactly 3 times. -/
theorem claim_C6_witness :
    (generate_with_retry (fun _ => CallResult.raises "boom") MAX_GENERATION_ATTEMPTS).2 =
      MAX_GENERATION_ATTEMPTS ∧
    MAX_GENERATION_ATTEMPTS = 3 ∧
    ∃ msg, (generate_with_retry (fun _ => CallResult.raises "boom")
      MAX_GENERATION_ATTEMPTS).1 = Except.error msg :=
  claim_C6_retry_bound (fun _ => CallResult.raises "boom") (fun _ => trivial)

/-- C5: when the judge call raises or its response cannot be parsed, the
verification gates fail open: verify_generation returns (true, []) and
verify_background_reproduction returns true; the failure is absorbed
inside the gate. -/
theorem claim_C5_failopen (parse : String → Option JsonObj) :
    (∀ msg, verify_generation parse (JudgeOutcome.raises msg) = (true, [])) ∧
    (∀ text, parse (clean_json_text text) = none →
      verify_generation parse (JudgeOutcome.returns text) = (true, [])) ∧
    (∀ msg, verify_background_reproduction parse (JudgeOutcome.raises msg) = true) ∧
    (∀ text, parse (clean_json_text text) = none →
      verify_background_reproduction parse (JudgeOutcome.returns text) = true) := by
  refine ⟨fun _ => rfl, fun text h => ?_, fun _ => rfl, fun text h => ?_⟩ <;>
    simp [verify_generation, verify_background_reproduction, h]

/-- C5 witness: a raising call and an unparsable response both pass. -/
theorem claim_C5_witness :
    verify_generation (fun _ => none) (JudgeOutcome.raises "err") = (true, []) ∧
    verify_generation (fun _ => none) (JudgeOutcome.returns "not json") = (true, []) ∧
    verify_background_reproduction (fun _ => none) (JudgeOutcome.raises "err") = true ∧
    verify_background_reproduction (fun _ => none) (JudgeOutcome.returns "not json") = true :=
  ⟨(claim_C5_failopen (fun _ => none)).1 "err",
   (claim_C5_failopen (fun _ => none)).2.1 "not json" rfl,
   (claim_C5_failopen (fun _ => none)).2.2.1 "err",
   (claim_C5_failopen (fun _ => none)).2.2.2 "not json" rfl⟩

/-- C10: a judge response that parses to an object with no "pass" field is
a failed verification: the cleaner turns empty text into the empty JSON
object, which yields (false, []); whenever parsing succeeds the result is
read from the object with pass defaulting to false, so fail-open is
reserved for raised calls and parse failures. -/
theorem claim_C10_missing_pass_fails (parse : String → Option JsonObj) :
    clean_json_text "" = "\x7b\x7d" ∧
    (parse "\x7b\x7d" = some ⟨none, none⟩ →
      verify_generation parse (JudgeOutcome.returns "") = (false, [])) ∧
    (∀ text obj, parse (clean_json_text text) = some obj → obj.pass = none →
      (verify_generation parse (JudgeOutcome.returns text)).1 = false) ∧
    (∀ text obj, parse (clean_json_text text) = some obj →
      verify_generation parse (JudgeOutcome.returns text) =
        (obj.pass.getD false, obj.issues.getD [])) := by
  refine ⟨rfl, fun h => ?_, fun text obj h hp => ?_, fun text obj h => ?_⟩
  · simp [verify_generation, clean_json_text, h]
  · simp [verify_generation, h, hp]
  · simp [verify_generation, h]

/-- C10 witness: with a parser sending the empty object to a pass-less
record, an empty judge response fails verification with no issues. -/
theorem claim_C10_witness :
    clean_json_text "" = "\x7b\x7d" ∧
    verify_generation (fun s => if s = "\x7b\x7d" then some ⟨none, none⟩ else none)
      (JudgeOutcome.returns "") = (false, []) :=
  ⟨(claim_C10_missing_pass_fails
      (fun s => if s = "\x7b\x7d" then some ⟨none, none⟩ else none)).1,
   (claim_C10_missing_pass_fails
      (fun s => if s = "\x7b\x7d" then some ⟨none, none⟩ else none)).2.1 (by simp)⟩

/-- C7: a request without the mandatory product image is answered 400
immediately on both generation endpoints, with no model call of any kind
(no Stage-1 call, no verify loop, no fallback generation). -/
theorem claim_C7_missing_product_image
    (reqA : V1Request) (mc : MasterCache)
    (stageA : Nat → Except String Bytes) (judgeA : Nat → Bool × List String)
    (reqB : V2Request) (bc : BgCache) (mcB : MasterCache)
    (s1gen : Nat → CallResult) (s1ver : Nat → Bool)
    (stage2 : Nat → Except String Bytes) (judgeB : Nat → Bool × List String)
    (fb : Except String Bytes)
    (hA : reqA.image = none) (hB : reqB.image = none) :
    generate_studio_image reqA mc stageA judgeA =
      ⟨{ status := 400, error := some "No reference image provided" }, 0, none, none⟩ ∧
    generate_studio_image_v2 reqB bc mcB s1gen s1ver stage2 judgeB fb =
      ⟨{ status := 400, error := some "No reference image provided" }, 0, none, none⟩ := by
  constructor
  · simp [generate_studio_image, hA]
  · simp [generate_studio_image_v2, hB]

/-- C7 witness: concrete image-less requests on both endpoints. -/
theorem claim_C7_witness :
    generate_studio_image
      { image := none, prompt := "", quality := "1K", backgroundDescription := "",
        productDimensions := "", orientation := "angled", visibleText := "",
        masterId := "", masterImageFile := none, masterStyle := "", details := [] }
      [] (fun _ => Except.error "e") (fun _ => (true, [])) =
      ⟨{ status := 400, error := some "No reference image provided" }, 0, none, none⟩ ∧
    generate_studio_image_v2
      { image := none, prompt := "", quality := "1K", lightingPrompt := "",
        backgroundDescription := "", materialScale := "", productDimensions := "",
        orientation := "angled", visibleText := "", backgroundId := "",
        backgroundImageFile := none, cachedBackgroundFile := none, masterId := "",
        masterImageFile := none, masterStyle := "", details := [] }
      [] [] (fun _ => CallResult.raises "x") (fun _ => false)
      (fun _ => Except.error "e") (fun _ => (true, [])) (Except.error "e") =
      ⟨{ status := 400, error := some "No reference image provided" }, 0, none, none⟩ :=
  claim_C7_missing_product_image _ _ _ _ _ _ _ _ _ _ _ _ rfl rfl

theorem cacheLookup_insert {α : Type} (c : List (String × α)) (k : String) (v : α) :
    cacheLookup (cacheInsert c k v) k = some v := by
  simp [cacheLookup, cacheInsert]

/-- C1: two pregeneration requests carrying byte-identical background
bytes.  If the first one (a cache miss) succeeds, it stores its generated
background in BACKGROUND_CACHE under the fingerprint of those bytes, and
the second request — whatever its model oracles would do — takes the
cache-hit branch: it makes zero generative and zero analysis calls and
returns the cached background. -/
theorem claim_C1_background_cache_reuse
    (digest : Bytes → String) (bgBytes : Bytes) (cache : BgCache)
    (analysis1 : Except String AnalysisInfo) (gen1 : Nat → CallResult) (ver1 : Nat → Bool)
    (analysis2 : Except String AnalysisInfo) (gen2 : Nat → CallResult) (ver2 : Nat → Bool)
    (hmiss : cacheLookup cache (generate_cache_id digest bgBytes "bg_") = none)
    (hok : (pregenerate_background digest analysis1 gen1 ver1 cache bgBytes).response.status
      = 200) :
    ∃ d,
      (pregenerate_background digest analysis1 gen1 ver1 cache bgBytes).response.image
        = some d ∧
      (∃ desc sc,
        cacheLookup (pregenerate_background digest analysis1 gen1 ver1 cache bgBytes).cache
          (generate_cache_id digest bgBytes "bg_") = some ⟨d, desc, sc⟩) ∧
      (pregenerate_background digest analysis2 gen2 ver2
        (pregenerate_background digest analysis1 gen1 ver1 cache bgBytes).cache
        bgBytes).genCalls = 0 ∧
      (pregenerate_background digest analysis2 gen2 ver2
        (pregenerate_background digest analysis1 gen1 ver1 cache bgBytes).cache
        bgBytes).analysisCalls = 0 ∧
      (pregenerate_background digest analysis2 gen2 ver2
        (pregenerate_background digest analysis1 gen1 ver1 cache bgBytes).cache
        bgBytes).response.status = 200 ∧
      (pregenerate_background digest analysis2 gen2 ver2
        (pregenerate_background digest analysis1 gen1 ver1 cache bgBytes).cache
        bgBytes).response.cached = some true ∧
      (pregenerate_background digest analysis2 gen2 ver2
        (pregenerate_background digest analysis1 gen1 ver1 cache bgBytes).cache
        bgBytes).response.image = some d := by
  cases hA : analysis1 with
  | error e =>
    simp [pregenerate_background, hmiss, hA] at hok
  | ok analysis =>
    rcases hL : pregenLoopAux gen1 ver1 MAX_GENERATION_ATTEMPTS 0 0 with ⟨o, calls, vc⟩
    cases o with
    | none =>
      simp [pregenerate_background, hmiss, hA, hL] at hok
    | some d =>
      refine ⟨d, ?_, ⟨analysis.description, analysis.material_scale, ?_⟩, ?_, ?_, ?_, ?_, ?_⟩ <;>
        simp [pregenerate_background, hmiss, hA, hL, cacheLookup_insert]

/-- C1 witness: a concrete first request generates and caches, and the
concrete second request (whose oracles would all fail) is served from the
cache with zero model calls. -/
theorem claim_C1_witness :
    ∃ d,
      (pregenerate_background (fun _ => "d") (Except.ok ⟨"desc", "sc", false⟩)
        (fun _ => CallResult.response [⟨some [5]⟩]) (fun _ => true) [] [1, 2]).response.image
        = some d ∧
      (∃ desc sc,
        cacheLookup (pregenerate_background (fun _ => "d") (Except.ok ⟨"desc", "sc", false⟩)
          (fun _ => CallResult.response [⟨some [5]⟩]) (fun _ => true) [] [1, 2]).cache
          (generate_cache_id (fun _ => "d") [1, 2] "bg_") = some ⟨d, desc, sc⟩) ∧
      (pregenerate_background (fun _ => "d") (Except.error "down")
        (fun _ => CallResult.raises "down") (fun _ => false)
        (pregenerate_background (fun _ => "d") (Except.ok ⟨"desc", "sc", false⟩)
          (fun _ => CallResult.response [⟨some [5]⟩]) (fun _ => true) [] [1, 2]).cache
        [1, 2]).genCalls = 0 ∧
      (pregenerate_background (fun _ => "d") (Except.error "down")
        (fun _ => CallResult.raises "down") (fun _ => false)
        (pregenerate_background (fun _ => "d") (Except.ok ⟨"desc", "sc", false⟩)
          (fun _ => CallResult.response [⟨some [5]⟩]) (fun _ => true) [] [1, 2]).cache
        [1, 2]).analysisCalls = 0 ∧
      (pregenerate_background (fun _ => "d") (Except.error "down")
        (fun _ => CallResult.raises "down") (fun _ => false)
        (pregenerate_background (fun _ => "d") (Except.ok ⟨"desc", "sc", false⟩)
          (fun _ => CallResult.response [⟨some [5]⟩]) (fun _ => true) [] [1, 2]).cache
        [1, 2]).response.status = 200 ∧
      (pregenerate_background (fun _ => "d") (Except.error "down")
        (fun _ => CallResult.raises "down") (fun _ => false)
        (pregenerate_background (fun _ => "d") (Except.ok ⟨"desc", "sc", false⟩)
          (fun _ => CallResult.response [⟨some [5]⟩]) (fun _ => true) [] [1, 2]).cache
        [1, 2]).response.cached = some true ∧
      (pregenerate_background (fun _ => "d") (Except.error "down")
        (fun _ => CallResult.raises "down") (fun _ => false)
        (pregenerate_background (fun _ => "d") (Except.ok ⟨"desc", "sc", false⟩)
          (fun _ => CallResult.response [⟨some [5]⟩]) (fun _ => true) [] [1, 2]).cache
        [1, 2]).response.image = some d :=
  claim_C1_background_cache_reuse (fun _ => "d") [1, 2] []
    (Except.ok ⟨"desc", "sc", false⟩) (fun _ => CallResult.response [⟨some [5]⟩])
    (fun _ => true) (Except.error "down") (fun _ => CallResult.raises "down")
    (fun _ => false) rfl (by decide)

theorem v1LoopAux_error {stage : Nat → Except String Bytes} {k : Nat} {e : String}
    (judge : Nat → Bool × List String) (gp : String) (left : Nat)
    (parts : List ContentPart) (hist : List (List ContentPart)) (ver : List Bytes)
    (hs : stage k = Except.error e) :
    v1LoopAux stage judge gp left k parts hist ver =
      ⟨{ status := 500, error := some e }, k + 1, ver, hist ++ [parts]⟩ := by
  simp [v1LoopAux, hs]

theorem v1LoopAux_pass {stage : Nat → Except String Bytes} {k : Nat} {g : Bytes}
    {judge : Nat → Bool × List String} (gp : String) (left : Nat)
    (parts : List ContentPart) (hist : List (List ContentPart)) (ver : List Bytes)
    (hs : stage k = Except.ok g) (hp : (judge k).1 = true) :
    v1LoopAux stage judge gp left k parts hist ver =
      ⟨{ status := 200, message := some "Image generated successfully", image := some g },
       k + 1, ver ++ [g], hist ++ [parts]⟩ := by
  simp [v1LoopAux, hs, hp]

theorem v1LoopAux_repair {stage : Nat → Except String Bytes} {k : Nat} {g : Bytes}
    {judge : Nat → Bool × List String} (gp : String) (left : Nat)
    (parts : List ContentPart) (hist : List (List ContentPart)) (ver : List Bytes)
    (hs : stage k = Except.ok g) (hp : (judge k).1 = false) :
    v1LoopAux stage judge gp (Nat.succ left) k parts hist ver =
      v1LoopAux stage judge gp left (k + 1)
        (setLast parts (ContentPart.text (gp ++ v1FixSuffix (judge k).2)))
        (hist ++ [parts]) (ver ++ [g]) := by
  conv_lhs => rw [v1LoopAux.eq_def]
  simp [hs, hp]

theorem v1LoopAux_exhaust {stage : Nat → Except String Bytes} {k : Nat} {g : Bytes}
    {judge : Nat → Bool × List String} (gp : String)
    (parts : List ContentPart) (hist : List (List ContentPart)) (ver : List Bytes)
    (hs : stage k = Except.ok g) (hp : (judge k).1 = false) :
    v1LoopAux stage judge gp 0 k parts hist ver =
      ⟨{ status := 200, message := some "Generated with potential issues",
         image := some g, warnings := some (judge k).2 },
       k + 1, ver ++ [g], hist ++ [parts]⟩ := by
  simp [v1LoopAux, hs, hp]

theorem v2LoopAux_error {stage : Nat → Except String Bytes} {k : Nat} {e : String}
    (judge : Nat → Bool × List String) (sp : String) (s1 : Bytes) (left : Nat)
    (parts : List ContentPart) (hist : List (List ContentPart)) (ver : List Bytes)
    (hs : stage k = Except.error e) :
    v2LoopAux stage judge sp s1 left k parts hist ver =
      ⟨{ status := 200, message := some "Partial - background only",
         image := some s1, warnings := some ["Composite failed"] },
       k + 1, ver, hist ++ [parts]⟩ := by
  simp [v2LoopAux, hs]

theorem v2LoopAux_pass {stage : Nat → Except String Bytes} {k : Nat} {g : Bytes}
    {judge : Nat → Bool × List String} (sp : String) (s1 : Bytes) (left : Nat)
    (parts : List ContentPart) (hist : List (List ContentPart)) (ver : List Bytes)
    (hs : stage k = Except.ok g) (hp : (judge k).1 = true) :
    v2LoopAux stage judge sp s1 left k parts hist ver =
      ⟨{ status := 200, message := some "Success", image := some g },
       k + 1, ver ++ [g], hist ++ [parts]⟩ := by
  simp [v2LoopAux, hs, hp]

theorem v2LoopAux_repair {stage : Nat → Except String Bytes} {k : Nat} {g : Bytes}
    {judge : Nat → Bool × List String} (sp : String) (s1 : Bytes) (left : Nat)
    (parts : List ContentPart) (hist : List (List ContentPart)) (ver : List Bytes)
    (hs : stage k = Except.ok g) (hp : (judge k).1 = false) :
    v2LoopAux stage judge sp s1 (Nat.succ left) k parts hist ver =
      v2LoopAux stage judge sp s1 left (k + 1)
        (setLast parts (ContentPart.text (sp ++ v2FixSuffix (judge k).2)))
        (hist ++ [parts]) (ver ++ [g]) := by
  conv_lhs => rw [v2LoopAux.eq_def]
  simp [hs, hp]

theorem v2LoopAux_exhaust {stage : Nat → Except String Bytes} {k : Nat} {g : Bytes}
    {judge : Nat → Bool × List String} (sp : String) (s1 : Bytes)
    (parts : List ContentPart) (hist : List (List ContentPart)) (ver : List Bytes)
    (hs : stage k = Except.ok g) (hp : (judge k).1 = false) :
    v2LoopAux stage judge sp s1 0 k parts hist ver =
      ⟨{ status := 200, message := some "Generated with issues",
         image := some g, warnings := some (judge k).2 },
       k + 1, ver ++ [g], hist ++ [parts]⟩ := by
  simp [v2LoopAux, hs, hp]

theorem v1LoopAux_image_mem (stage : Nat → Except String Bytes)
    (judge : Nat → Bool × List String) (gp : String) :
    ∀ left k parts hist ver img,
      (v1LoopAux stage judge gp left k parts hist ver).response.image = some img →
      img ∈ (v1LoopAux stage judge gp left k parts hist ver).verifiedImgs := by
  intro left
  induction left with
  | zero =>
    intro k parts hist ver img h
    cases hs : stage k with
    | error e => rw [v1LoopAux_error judge gp 0 parts hist ver hs] at h; simp at h
    | ok g =>
      cases hp : (judge k).1 with
      | true =>
        rw [v1LoopAux_pass gp 0 parts hist ver hs hp] at h ⊢
        simp at h
        simp [h]
      | false =>
        rw [v1LoopAux_exhaust gp parts hist ver hs hp] at h ⊢
        simp at h
        simp [h]
  | succ left ih =>
    intro k parts hist ver img h
    cases hs : stage k with
    | error e => rw [v1LoopAux_error judge gp (Nat.succ left) parts hist ver hs] at h; simp at h
    | ok g =>
      cases hp : (judge k).1 with
      | true =>
        rw [v1LoopAux_pass gp (Nat.succ left) parts hist ver hs hp] at h ⊢
        simp at h
        simp [h]
      | false =>
        rw [v1LoopAux_repair gp left parts hist ver hs hp] at h ⊢
        exact ih _ _ _ _ _ h

theorem v2LoopAux_image_mem (stage : Nat → Except String Bytes)
    (judge : Nat → Bool × List String) (sp : String) (s1 : Bytes) :
    ∀ left k parts hist ver img,
      (v2LoopAux stage judge sp s1 left k parts hist ver).response.image = some img →
      img ∈ (v2LoopAux stage judge sp s1 left k parts hist ver).verifiedImgs ∨ img = s1 := by
  intro left
  induction left with
  | zero =>
    intro k parts hist ver img h
    cases hs : stage k with
    | error e =>
      rw [v2LoopAux_error judge sp s1 0 parts hist ver hs] at h
      simp at h
      right; exact h.symm
    | ok g =>
      cases hp : (judge k).1 with
      | true =>
        rw [v2LoopAux_pass sp s1 0 parts hist ver hs hp] at h ⊢
        simp at h
        left; simp [h]
      | false =>
        rw [v2LoopAux_exhaust sp s1 parts hist ver hs hp] at h ⊢
        simp at h
        left; simp [h]
  | succ left ih =>
    intro k parts hist ver img h
    cases hs : stage k with
    | error e =>
      rw [v2LoopAux_error judge sp s1 (Nat.succ left) parts hist ver hs] at h
      simp at h
      right; exact h.symm
    | ok g =>
      cases hp : (judge k).1 with
      | true =>
        rw [v2LoopAux_pass sp s1 (Nat.succ left) parts hist ver hs hp] at h ⊢
        simp at h
        left; simp [h]
      | false =>
        rw [v2LoopAux_repair sp s1 left parts hist ver hs hp] at h ⊢
        exact ih _ _ _ _ _ h

theorem v2Stage1Loop_none_count (gen : Nat → CallResult) (ver : Nat → Bool) :
    ∀ rem attempt vc, (v2Stage1Loop gen ver rem attempt vc).1 = none →
      (v2Stage1Loop gen ver rem attempt vc).2 = attempt + rem := by
  intro rem
  induction rem with
  | zero => intro attempt vc _; simp [v2Stage1Loop]
  | succ rem ih =>
    intro attempt vc h
    cases hg : (generate_with_retry (fun _ => gen attempt) 1).1 with
    | ok b =>
      cases hv : ver vc with
      | true => simp [v2Stage1Loop, hg, hv] at h
      | false =>
        simp only [v2Stage1Loop, hg, hv] at h ⊢
        simp only [Bool.false_eq_true, if_false] at h ⊢
        rw [ih _ _ h]
        omega
    | error e =>
      simp only [v2Stage1Loop, hg] at h ⊢
      rw [ih _ _ h]
      omega

theorem setLast_dropLast (xs : List ContentPart) (p : ContentPart) :
    (setLast xs p).dropLast = xs.dropLast := by
  simp [setLast]

/-- Adjacent Stage-2 runs of a verify loop are linked by a repair step: the
later parts list is the earlier one with only its trailing instruction
block replaced, the replacement being the original prompt with the judge
issues of the earlier run appended through the fix suffix. -/
def HistStep (p : String) (sfx : List String → String) (judge : Nat → Bool × List String)
    (hist : List (List ContentPart)) : Prop :=
  ∀ k a b, hist.get? k = some a → hist.get? (k + 1) = some b →
    b.dropLast = a.dropLast ∧
    b = setLast a (ContentPart.text (p ++ sfx ((judge k).2)))

theorem histStep_singleton (p : String) (sfx : List String → String)
    (judge : Nat → Bool × List String) (a : List ContentPart) :
    HistStep p sfx judge [a] := by
  intro k x y hx hy
  rcases k with _ | k <;> simp at hy

theorem histStep_snoc (p : String) (sfx : List String → String)
    (judge : Nat → Bool × List String) (l : List (List ContentPart))
    (a b : List ContentPart)
    (h : HistStep p sfx judge (l ++ [a]))
    (hb : b = setLast a (ContentPart.text (p ++ sfx ((judge l.length).2)))) :
    HistStep p sfx judge ((l ++ [a]) ++ [b]) := by
  intro k x y hx hy
  have hylen : k + 1 < l.length + 1 + 1 := by
    by_contra hcon
    rw [List.get?_eq_none.mpr (by simpa using hcon)] at hy
    exact Option.noConfusion hy
  rcases Nat.lt_or_ge k l.length with hk | hk
  · have hx' : (l ++ [a]).get? k = some x := by
      rw [List.get?_append (by simpa using Nat.lt_succ_of_lt hk)] at hx
      exact hx
    have hy' : (l ++ [a]).get? (k + 1) = some y := by
      rw [List.get?_append (by simpa using Nat.succ_lt_succ hk)] at hy
      exact hy
    exact h k x y hx' hy'
  · have hkeq : k = l.length := by omega
    subst hkeq
    have hx' : x = a := by
      rw [List.get?_append (by simp)] at hx
      rw [List.get?_append_right (Nat.le_refl _)] at hx
      simp at hx
      exact hx.symm
    have hy' : y = b := by
      rw [List.get?_append_right (by simp)] at hy
      simp at hy
      exact hy.symm
    subst hx'
    subst hy'
    exact ⟨by rw [hb, setLast_dropLast], hb⟩

theorem v1LoopAux_histStep (stage : Nat → Except String Bytes)
    (judge : Nat → Bool × List String) (gp : String) :
    ∀ left k parts hist ver, hist.length = k →
      HistStep gp v1FixSuffix judge (hist ++ [parts]) →
      HistStep gp v1FixSuffix judge
        ((v1LoopAux stage judge gp left k parts hist ver).history) := by
  intro left
  induction left with
  | zero =>
    intro k parts hist ver hlen hstep
    cases hs : stage k with
    | error e => rw [v1LoopAux_error judge gp 0 parts hist ver hs]; exact hstep
    | ok g =>
      cases hp : (judge k).1 with
      | true => rw [v1LoopAux_pass gp 0 parts hist ver hs hp]; exact hstep
      | false => rw [v1LoopAux_exhaust gp parts hist ver hs hp]; exact hstep
  | succ left ih =>
    intro k parts hist ver hlen hstep
    cases hs : stage k with
    | error e => rw [v1LoopAux_error judge gp (Nat.succ left) parts hist ver hs]; exact hstep
    | ok g =>
      cases hp : (judge k).1 with
      | true => rw [v1LoopAux_pass gp (Nat.succ left) parts hist ver hs hp]; exact hstep
      | false =>
        rw [v1LoopAux_repair gp left parts hist ver hs hp]
        refine ih (k + 1) _ (hist ++ [parts]) _ (by simp [hlen]) ?_
        exact histStep_snoc gp v1FixSuffix judge hist parts _ hstep (by rw [hlen])

theorem v2LoopAux_histStep (stage : Nat → Except String Bytes)
    (judge : Nat → Bool × List String) (sp : String) (s1 : Bytes) :
    ∀ left k parts hist ver, hist.length = k →
      HistStep sp v2FixSuffix judge (hist ++ [parts]) →
      HistStep sp v2FixSuffix judge
        ((v2LoopAux stage judge sp s1 left k parts hist ver).history) := by
  intro left
  induction left with
  | zero =>
    intro k parts hist ver hlen hstep
    cases hs : stage k with
    | error e => rw [v2LoopAux_error judge sp s1 0 parts hist ver hs]; exact hstep
    | ok g =>
      cases hp : (judge k).1 with
      | true => rw [v2LoopAux_pass sp s1 0 parts hist ver hs hp]; exact hstep
      | false => rw [v2LoopAux_exhaust sp s1 parts hist ver hs hp]; exact hstep
  | succ left ih =>
    intro k parts hist ver hlen hstep
    cases hs : stage k with
    | error e => rw [v2LoopAux_error judge sp s1 (Nat.succ left) parts hist ver hs]; exact hstep
    | ok g =>
      cases hp : (judge k).1 with
      | true => rw [v2LoopAux_pass sp s1 (Nat.succ left) parts hist ver hs hp]; exact hstep
      | false =>
        rw [v2LoopAux_repair sp s1 left parts hist ver hs hp]
        refine ih (k + 1) _ (hist ++ [parts]) _ (by simp [hlen]) ?_
        exact histStep_snoc sp v2FixSuffix judge hist parts _ hstep (by rw [hlen])

/-- C9: in both verify loops, every repair iteration re-runs Stage 2 with
reference image parts identical to the previous attempt (the parts list
differs only in its last element), and the new trailing instruction block
is the original prompt with the previous judge verdict issues appended
verbatim through the fix directive suffix. -/
theorem claim_C9_repair_keeps_references :
    (∀ (stage : Nat → Except String Bytes) (judge : Nat → Bool × List String)
        (gp : String) (refs : List ContentPart),
      HistStep gp v1FixSuffix judge (v1VerifyLoop stage judge gp refs).history) ∧
    (∀ (stage : Nat → Except String Bytes) (judge : Nat → Bool × List String)
        (sp : String) (s1 : Bytes) (refs : List ContentPart),
      HistStep sp v2FixSuffix judge (v2VerifyLoop stage judge sp s1 refs).history) := by
  constructor
  · intro stage judge gp refs
    exact v1LoopAux_histStep stage judge gp MAX_VERIFICATION_RETRIES 0 _ [] [] rfl
      (histStep_singleton gp v1FixSuffix judge _)
  · intro stage judge sp s1 refs
    exact v2LoopAux_histStep stage judge sp s1 MAX_VERIFICATION_RETRIES 0 _ [] [] rfl
      (histStep_singleton sp v2FixSuffix judge _)

/-- C9 witness: in a concrete V2 run whose judge always fails with one
issue, the second Stage-2 run keeps the reference image and replaces only
the trailing block by the original prompt plus the fix directive. -/
theorem claim_C9_witness :
    ([ContentPart.img [1] "image/png",
      ContentPart.text ("SP" ++ v2FixSuffix ["issue A"])] : List ContentPart).dropLast =
      ([ContentPart.img [1] "image/png", ContentPart.text "SP"] : List ContentPart).dropLast ∧
    ([ContentPart.img [1] "image/png",
      ContentPart.text ("SP" ++ v2FixSuffix ["issue A"])] : List ContentPart) =
      setLast [ContentPart.img [1] "image/png", ContentPart.text "SP"]
        (ContentPart.text ("SP" ++ v2FixSuffix ["issue A"])) :=
  claim_C9_repair_keeps_references.2 (fun _ => Except.ok [5])
    (fun _ => (false, ["issue A"])) "SP" [9] [ContentPart.img [1] "image/png"]
    0 _ _ (by decide) (by decide)

/-- C3 amended: the V1 endpoint loop passes every Stage-2 success to the
verification gate before returning it (a returned image is always among
the verified ones), and the V2 composite loop does so except on its
background-only path, which returns the Stage-1 background instead.  The V1
fallback (see the counterexample) returns unverified images, refuting the
claim that no path does. -/
theorem claim_C3_amended :
    (∀ (stage : Nat → Except String Bytes) (judge : Nat → Bool × List String)
        (gp : String) (refs : List ContentPart) (img : Bytes),
      (v1VerifyLoop stage judge gp refs).response.image = some img →
      img ∈ (v1VerifyLoop stage judge gp refs).verifiedImgs) ∧
    (∀ (stage : Nat → Except String Bytes) (judge : Nat → Bool × List String)
        (sp : String) (s1 : Bytes) (refs : List ContentPart) (img : Bytes),
      (v2VerifyLoop stage judge sp s1 refs).response.image = some img →
      img ∈ (v2VerifyLoop stage judge sp s1 refs).verifiedImgs ∨ img = s1) := by
  constructor
  · intro stage judge gp refs img h
    exact v1LoopAux_image_mem stage judge gp _ _ _ _ _ _ h
  · intro stage judge sp s1 refs img h
    exact v2LoopAux_image_mem stage judge sp s1 _ _ _ _ _ _ h

/-- C3 witness: a concrete V1 loop run returns an image it verified. -/
theorem claim_C3_witness :
    [4] ∈ (v1VerifyLoop (fun _ => Except.ok [4]) (fun _ => (true, [])) "P"
      [ContentPart.img [1] "image/jpeg"]).verifiedImgs :=
  claim_C3_amended.1 (fun _ => Except.ok [4]) (fun _ => (true, [])) "P"
    [ContentPart.img [1] "image/jpeg"] [4] (by decide)

/-- C3 counterexample: a V2 request with no background input falls back to
generate_v1_internal, whose Stage-2 success is returned (status 200, image
present) while the verify loop never ran (loopTrace is none: zero
verification-gate invocations), so a generated image is returned that was
never verified. -/
theorem claim_C3_counterexample :
    (generate_studio_image_v2
      { image := some ([0], "image/jpeg"), prompt := "", quality := "1K",
        lightingPrompt := "", backgroundDescription := "", materialScale := "",
        productDimensions := "", orientation := "angled", visibleText := "",
        backgroundId := "", backgroundImageFile := none, cachedBackgroundFile := none,
        masterId := "", masterImageFile := none, masterStyle := "", details := [] }
      [] [] (fun _ => CallResult.raises "x") (fun _ => false)
      (fun _ => Except.error "e") (fun _ => (true, [])) (Except.ok [7])).response.status
      = 200 ∧
    (generate_studio_image_v2
      { image := some ([0], "image/jpeg"), prompt := "", quality := "1K",
        lightingPrompt := "", backgroundDescription := "", materialScale := "",
        productDimensions := "", orientation := "angled", visibleText := "",
        backgroundId := "", backgroundImageFile := none, cachedBackgroundFile := none,
        masterId := "", masterImageFile := none, masterStyle := "", details := [] }
      [] [] (fun _ => CallResult.raises "x") (fun _ => false)
      (fun _ => Except.error "e") (fun _ => (true, [])) (Except.ok [7])).response.image
      = some [7] ∧
    (generate_studio_image_v2
      { image := some ([0], "image/jpeg"), prompt := "", quality := "1K",
        lightingPrompt := "", backgroundDescription := "", materialScale := "",
        productDimensions := "", orientation := "angled", visibleText := "",
        backgroundId := "", backgroundImageFile := none, cachedBackgroundFile := none,
        masterId := "", masterImageFile := none, masterStyle := "", details := [] }
      [] [] (fun _ => CallResult.raises "x") (fun _ => false)
      (fun _ => Except.error "e") (fun _ => (true, [])) (Except.ok [7])).loopTrace
      = none := by
  refine ⟨rfl, rfl, rfl⟩

/-- C2 amended: on Stage-2 retry exhaustion the V1 endpoint loop and the
V1 fallback return a 500 error, but the V2 composite loop instead returns
HTTP 200 with message "Partial - background only", the Stage-1 background
as the image, and warnings ["Composite failed"]. -/
theorem claim_C2_amended
    (stage : Nat → Except String Bytes) (judge : Nat → Bool × List String)
    (gp sp : String) (refs refs2 : List ContentPart) (s1 : Bytes) (e : String)
    (mb : Bytes) (mm p q : String) (di : List (Bytes × String)) (dl : List String)
    (bd dims o vt : String) (mi : Option Bytes) (ms : String)
    (hs : stage 0 = Except.error e) :
    (v1VerifyLoop stage judge gp refs).response.status = 500 ∧
    (v1VerifyLoop stage judge gp refs).response.error = some e ∧
    (generate_v1_internal (Except.error e) mb mm p q di dl bd dims o vt mi ms).response.status
      = 500 ∧
    (generate_v1_internal (Except.error e) mb mm p q di dl bd dims o vt mi ms).response.error
      = some e ∧
    (v2VerifyLoop stage judge sp s1 refs2).response.status = 200 ∧
    (v2VerifyLoop stage judge sp s1 refs2).response.message
      = some "Partial - background only" ∧
    (v2VerifyLoop stage judge sp s1 refs2).response.image = some s1 ∧
    (v2VerifyLoop stage judge sp s1 refs2).response.warnings = some ["Composite failed"] := by
  rw [v1VerifyLoop, v2VerifyLoop,
    v1LoopAux_error judge gp MAX_VERIFICATION_RETRIES _ [] [] hs,
    v2LoopAux_error judge sp s1 MAX_VERIFICATION_RETRIES _ [] [] hs]
  refine ⟨rfl, rfl, ?_, ?_, rfl, rfl, rfl, rfl⟩ <;> simp [generate_v1_internal]

/-- C2 amended witness: concrete instantiation of the three behaviours. -/
theorem claim_C2_witness :
    (v1VerifyLoop (fun _ => Except.error "gen failed") (fun _ => (true, [])) "P" []).response.status
      = 500 ∧
    (v1VerifyLoop (fun _ => Except.error "gen failed") (fun _ => (true, [])) "P" []).response.error
      = some "gen failed" ∧
    (generate_v1_internal (Except.error "gen failed") [0] "image/jpeg" "" "1K" [] [] "" ""
      "angled" "" none "").response.status = 500 ∧
    (generate_v1_internal (Except.error "gen failed") [0] "image/jpeg" "" "1K" [] [] "" ""
      "angled" "" none "").response.error = some "gen failed" ∧
    (v2VerifyLoop (fun _ => Except.error "gen failed") (fun _ => (true, [])) "S" [1] []).response.status
      = 200 ∧
    (v2VerifyLoop (fun _ => Except.error "gen failed") (fun _ => (true, [])) "S" [1] []).response.message
      = some "Partial - background only" ∧
    (v2VerifyLoop (fun _ => Except.error "gen failed") (fun _ => (true, [])) "S" [1] []).response.image
      = some [1] ∧
    (v2VerifyLoop (fun _ => Except.error "gen failed") (fun _ => (true, [])) "S" [1] []).response.warnings
      = some ["Composite failed"] :=
  claim_C2_amended (fun _ => Except.error "gen failed") (fun _ => (true, [])) "P" "S" [] []
    [1] "gen failed" [0] "image/jpeg" "" "1K" [] [] "" "" "angled" "" none "" rfl

/-- C2 counterexample: a V2 request with a background image whose Stage 1
succeeds and whose Stage-2 generate_with_retry genuinely exhausts all
MAX_GENERATION_ATTEMPTS attempts (the composed oracle always raises)
receives HTTP 200 with "Partial - background only", not a 500-class
error. -/
theorem claim_C2_counterexample :
    (generate_studio_image_v2
      { image := some ([0], "image/jpeg"), prompt := "", quality := "1K",
        lightingPrompt := "", backgroundDescription := "", materialScale := "",
        productDimensions := "", orientation := "angled", visibleText := "",
        backgroundId := "", backgroundImageFile := some ([1], "image/jpeg"),
        cachedBackgroundFile := none, masterId := "", masterImageFile := none,
        masterStyle := "", details := [] }
      [] [] (fun _ => CallResult.response [⟨some [2]⟩]) (fun _ => true)
      (fun _ => (generate_with_retry (fun _ => CallResult.raises "transport error")
        MAX_GENERATION_ATTEMPTS).1)
      (fun _ => (true, [])) (Except.ok [9])).response.status = 200 ∧
    (generate_studio_image_v2
      { image := some ([0], "image/jpeg"), prompt := "", quality := "1K",
        lightingPrompt := "", backgroundDescription := "", materialScale := "",
        productDimensions := "", orientation := "angled", visibleText := "",
        backgroundId := "", backgroundImageFile := some ([1], "image/jpeg"),
        cachedBackgroundFile := none, masterId := "", masterImageFile := none,
        masterStyle := "", details := [] }
      [] [] (fun _ => CallResult.response [⟨some [2]⟩]) (fun _ => true)
      (fun _ => (generate_with_retry (fun _ => CallResult.raises "transport error")
        MAX_GENERATION_ATTEMPTS).1)
      (fun _ => (true, [])) (Except.ok [9])).response.message
      = some "Partial - background only" ∧
    (generate_studio_image_v2
      { image := some ([0], "image/jpeg"), prompt := "", quality := "1K",
        lightingPrompt := "", backgroundDescription := "", materialScale := "",
        productDimensions := "", orientation := "angled", visibleText := "",
        backgroundId := "", backgroundImageFile := some ([1], "image/jpeg"),
        cachedBackgroundFile := none, masterId := "", masterImageFile := none,
        masterStyle := "", details := [] }
      [] [] (fun _ => CallResult.response [⟨some [2]⟩]) (fun _ => true)
      (fun _ => (generate_with_retry (fun _ => CallResult.raises "transport error")
        MAX_GENERATION_ATTEMPTS).1)
      (fun _ => (true, [])) (Except.ok [9])).response.warnings
      = some ["Composite failed"] := by
  refine ⟨rfl, rfl, rfl⟩

theorem v1VerifyLoop_allFail (imgs : Nat → Bytes) (judge : Nat → Bool × List String)
    (hj : ∀ k, (judge k).1 = false) (gp : String) (refs : List ContentPart) :
    (v1VerifyLoop (fun k => Except.ok (imgs k)) judge gp refs).response =
      { status := 200, message := some "Generated with potential issues",
        image := some (imgs 2), warnings := some (judge 2).2 } ∧
    (v1VerifyLoop (fun k => Except.ok (imgs k)) judge gp refs).stage2Runs = 3 := by
  have hM : MAX_VERIFICATION_RETRIES = Nat.succ (Nat.succ 0) := rfl
  rw [v1VerifyLoop, hM,
    v1LoopAux_repair gp _ _ _ _ rfl (hj 0),
    v1LoopAux_repair gp _ _ _ _ rfl (hj (0 + 1)),
    v1LoopAux_exhaust gp _ _ _ rfl (hj (0 + 1 + 1))]
  exact ⟨rfl, rfl⟩

theorem v2VerifyLoop_allFail (imgs : Nat → Bytes) (judge : Nat → Bool × List String)
    (hj : ∀ k, (judge k).1 = false) (sp : String) (s1 : Bytes) (refs : List ContentPart) :
    (v2VerifyLoop (fun k => Except.ok (imgs k)) judge sp s1 refs).response =
      { status := 200, message := some "Generated with issues",
        image := some (imgs 2), warnings := some (judge 2).2 } ∧
    (v2VerifyLoop (fun k => Except.ok (imgs k)) judge sp s1 refs).stage2Runs = 3 := by
  have hM : MAX_VERIFICATION_RETRIES = Nat.succ (Nat.succ 0) := rfl
  rw [v2VerifyLoop, hM,
    v2LoopAux_repair sp s1 _ _ _ _ rfl (hj 0),
    v2LoopAux_repair sp s1 _ _ _ _ rfl (hj (0 + 1)),
    v2LoopAux_exhaust sp s1 _ _ _ rfl (hj (0 + 1 + 1))]
  exact ⟨rfl, rfl⟩

theorem generate_studio_image_some {req : V1Request} {mb : Bytes} {mm : String}
    (mc : MasterCache) (stage : Nat → Except String Bytes)
    (judge : Nat → Bool × List String) (himg : req.image = some (mb, mm)) :
    generate_studio_image req mc stage judge =
      ⟨(v1VerifyLoop stage judge
          (build_v1_prompt req.prompt (req.details.map (fun d => d.2.2))
            req.backgroundDescription req.productDimensions req.orientation req.visibleText
            (resolveMaster mc req.masterId req.masterImageFile req.masterStyle).isSome
            (match resolveMaster mc req.masterId req.masterImageFile req.masterStyle with
             | some m => m.2
             | none => ""))
          ((match resolveMaster mc req.masterId req.masterImageFile req.masterStyle with
            | some m => [ContentPart.img m.1 "image/png"]
            | none => []) ++
           [ContentPart.img mb mm] ++
           (req.details.map (fun d => (d.1, d.2.1))).map
             (fun d => ContentPart.img d.1 d.2))).response, 0,
       some (v1VerifyLoop stage judge
          (build_v1_prompt req.prompt (req.details.map (fun d => d.2.2))
            req.backgroundDescription req.productDimensions req.orientation req.visibleText
            (resolveMaster mc req.masterId req.masterImageFile req.masterStyle).isSome
            (match resolveMaster mc req.masterId req.masterImageFile req.masterStyle with
             | some m => m.2
             | none => ""))
          ((match resolveMaster mc req.masterId req.masterImageFile req.masterStyle with
            | some m => [ContentPart.img m.1 "image/png"]
            | none => []) ++
           [ContentPart.img mb mm] ++
           (req.details.map (fun d => (d.1, d.2.1))).map
             (fun d => ContentPart.img d.1 d.2))), none⟩ := by
  simp [generate_studio_image, himg]

/-- C4 amended: with a judge that deterministically fails verification and
a generative stage that always produces an image, both verify-and-repair
loops perform the initial attempt plus MAX_VERIFICATION_RETRIES repairs
(3 Stage-2 runs), and on exhausting the bound return a 200 response
carrying the last generated image together with a warnings field equal to
the final judge verdict issue list — which is non-empty whenever that
verdict reported at least one issue, but is the empty list when the
failing judge reported none (see the counterexample).  The first conjunct
states this for the V1 endpoint, the second for the V2 composite loop on
any Stage-2 parts and Stage-1 background. -/
theorem claim_C4_amended (req : V1Request) (mc : MasterCache)
    (imgs : Nat → Bytes) (judge : Nat → Bool × List String)
    (mb : Bytes) (mm : String)
    (himg : req.image = some (mb, mm))
    (hj : ∀ k, (judge k).1 = false) :
    (∃ lt,
      (generate_studio_image req mc (fun k => Except.ok (imgs k)) judge).loopTrace
        = some lt ∧
      (generate_studio_image req mc (fun k => Except.ok (imgs k)) judge).response
        = lt.response ∧
      lt.stage2Runs = 3 ∧
      MAX_VERIFICATION_RETRIES = 2 ∧
      lt.response.status = 200 ∧
      lt.response.image = some (imgs 2) ∧
      lt.response.warnings = some (judge 2).2 ∧
      ((judge 2).2 ≠ [] → lt.response.warnings ≠ some [])) ∧
    (∀ (sp : String) (s1 : Bytes) (refs : List ContentPart),
      (v2VerifyLoop (fun k => Except.ok (imgs k)) judge sp s1 refs).stage2Runs = 3 ∧
      (v2VerifyLoop (fun k => Except.ok (imgs k)) judge sp s1 refs).response.status = 200 ∧
      (v2VerifyLoop (fun k => Except.ok (imgs k)) judge sp s1 refs).response.message
        = some "Generated with issues" ∧
      (v2VerifyLoop (fun k => Except.ok (imgs k)) judge sp s1 refs).response.image
        = some (imgs 2) ∧
      (v2VerifyLoop (fun k => Except.ok (imgs k)) judge sp s1 refs).response.warnings
        = some (judge 2).2 ∧
      ((judge 2).2 ≠ [] →
        (v2VerifyLoop (fun k => Except.ok (imgs k)) judge sp s1 refs).response.warnings
          ≠ some [])) := by
  constructor
  · rw [generate_studio_image_some mc (fun k => Except.ok (imgs k)) judge himg]
    obtain ⟨hres, hruns⟩ := v1VerifyLoop_allFail imgs judge hj
      (build_v1_prompt req.prompt (req.details.map (fun d => d.2.2))
        req.backgroundDescription req.productDimensions req.orientation req.visibleText
        (resolveMaster mc req.masterId req.masterImageFile req.masterStyle).isSome
        (match resolveMaster mc req.masterId req.masterImageFile req.masterStyle with
         | some m => m.2
         | none => ""))
      ((match resolveMaster mc req.masterId req.masterImageFile req.masterStyle with
        | some m => [ContentPart.img m.1 "image/png"]
        | none => []) ++
       [ContentPart.img mb mm] ++
       (req.details.map (fun d => (d.1, d.2.1))).map (fun d => ContentPart.img d.1 d.2))
    refine ⟨_, rfl, rfl, hruns, rfl, ?_, ?_, ?_, ?_⟩ <;> rw [hres]
    intro hne
    simpa using hne
  · intro sp s1 refs
    obtain ⟨hres, hruns⟩ := v2VerifyLoop_allFail imgs judge hj sp s1 refs
    refine ⟨hruns, ?_, ?_, ?_, ?_, ?_⟩ <;> rw [hres]
    intro hne
    simpa using hne

/-- C4 witness: a concrete run with a judge that always fails citing one
issue exhausts the bound after 3 runs and returns 200 with that issue as
its warnings, on the V1 endpoint and on the V2 composite loop. -/
theorem claim_C4_witness :
    (∃ lt,
      (generate_studio_image
        { image := some ([0], "image/jpeg"), prompt := "", quality := "1K",
          backgroundDescription := "", productDimensions := "", orientation := "angled",
          visibleText := "", masterId := "", masterImageFile := none, masterStyle := "",
          details := [] }
        [] (fun k => Except.ok [k]) (fun _ => (false, ["bad lighting"]))).loopTrace
        = some lt ∧
      (generate_studio_image
        { image := some ([0], "image/jpeg"), prompt := "", quality := "1K",
          backgroundDescription := "", productDimensions := "", orientation := "angled",
          visibleText := "", masterId := "", masterImageFile := none, masterStyle := "",
          details := [] }
        [] (fun k => Except.ok [k]) (fun _ => (false, ["bad lighting"]))).response
        = lt.response ∧
      lt.stage2Runs = 3 ∧
      MAX_VERIFICATION_RETRIES = 2 ∧
      lt.response.status = 200 ∧
      lt.response.image = some [2] ∧
      lt.response.warnings = some ["bad lighting"] ∧
      (["bad lighting"] ≠ ([] : List String) → lt.response.warnings ≠ some [])) ∧
    ((v2VerifyLoop (fun k => Except.ok [k]) (fun _ => (false, ["bad lighting"])) "SP" [9]
        [ContentPart.img [1] "image/png"]).stage2Runs = 3 ∧
      (v2VerifyLoop (fun k => Except.ok [k]) (fun _ => (false, ["bad lighting"])) "SP" [9]
        [ContentPart.img [1] "image/png"]).response.status = 200 ∧
      (v2VerifyLoop (fun k => Except.ok [k]) (fun _ => (false, ["bad lighting"])) "SP" [9]
        [ContentPart.img [1] "image/png"]).response.message = some "Generated with issues" ∧
      (v2VerifyLoop (fun k => Except.ok [k]) (fun _ => (false, ["bad lighting"])) "SP" [9]
        [ContentPart.img [1] "image/png"]).response.image = some [2] ∧
      (v2VerifyLoop (fun k => Except.ok [k]) (fun _ => (false, ["bad lighting"])) "SP" [9]
        [ContentPart.img [1] "image/png"]).response.warnings = some ["bad lighting"] ∧
      (["bad lighting"] ≠ ([] : List String) →
        (v2VerifyLoop (fun k => Except.ok [k]) (fun _ => (false, ["bad lighting"])) "SP" [9]
          [ContentPart.img [1] "image/png"]).response.warnings ≠ some [])) :=
  ⟨(claim_C4_amended
      { image := some ([0], "image/jpeg"), prompt := "", quality := "1K",
        backgroundDescription := "", productDimensions := "", orientation := "angled",
        visibleText := "", masterId := "", masterImageFile := none, masterStyle := "",
        details := [] }
      [] (fun k => [k]) (fun _ => (false, ["bad lighting"])) [0] "image/jpeg" rfl
      (fun _ => rfl)).1,
   (claim_C4_amended
      { image := some ([0], "image/jpeg"), prompt := "", quality := "1K",
        backgroundDescription := "", productDimensions := "", orientation := "angled",
        visibleText := "", masterId := "", masterImageFile := none, masterStyle := "",
        details := [] }
      [] (fun k => [k]) (fun _ => (false, ["bad lighting"])) [0] "image/jpeg" rfl
      (fun _ => rfl)).2 "SP" [9] [ContentPart.img [1] "image/png"]⟩

/-- C4 counterexample: a judge that deterministically fails but reports an
empty issue list drives the loop through all 3 Stage-2 runs and the
response is 200 — but its warnings value is the EMPTY list, refuting the
claimed non-empty warnings list. -/
theorem claim_C4_counterexample :
    (generate_studio_image
      { image := some ([0], "image/jpeg"), prompt := "", quality := "1K",
        backgroundDescription := "", productDimensions := "", orientation := "angled",
        visibleText := "", masterId := "", masterImageFile := none, masterStyle := "",
        details := [] }
      [] (fun k => Except.ok [k]) (fun _ => (false, []))).response.status = 200 ∧
    (generate_studio_image
      { image := some ([0], "image/jpeg"), prompt := "", quality := "1K",
        backgroundDescription := "", productDimensions := "", orientation := "angled",
        visibleText := "", masterId := "", masterImageFile := none, masterStyle := "",
        details := [] }
      [] (fun k => Except.ok [k]) (fun _ => (false, []))).response.warnings
      = some ([] : List String) ∧
    ((generate_studio_image
      { image := some ([0], "image/jpeg"), prompt := "", quality := "1K",
        backgroundDescription := "", productDimensions := "", orientation := "angled",
        visibleText := "", masterId := "", masterImageFile := none, masterStyle := "",
        details := [] }
      [] (fun k => Except.ok [k]) (fun _ => (false, []))).loopTrace.map
        LoopTrace.stage2Runs) = some 3 := by
  refine ⟨rfl, rfl, rfl⟩

/-- C8: when a V2 request supplies a background image file (no cached
background) and Stage 1 exhausts its retry bound without a verified
result, the pipeline does not fail: after exactly MAX_GENERATION_ATTEMPTS
Stage-1 generative calls it runs generate_v1_internal on the textual
background description (no background image part), and when that composite
generation succeeds the response is a plain 200 Success with no error and
no warnings — the exhaustion itself is never reported. -/
theorem claim_C8_stage1_exhaustion_fallback (req : V2Request) (bc : BgCache)
    (mc : MasterCache) (s1gen : Nat → CallResult) (s1ver : Nat → Bool)
    (stage2 : Nat → Except String Bytes) (judge : Nat → Bool × List String)
    (d mb bgB : Bytes) (mm bgM : String)
    (himg : req.image = some (mb, mm))
    (hbid : req.backgroundId = "")
    (hbf : req.backgroundImageFile = some (bgB, bgM))
    (hmid : req.masterId = "")
    (hmf : req.masterImageFile = none)
    (hs1 : (v2Stage1Loop s1gen s1ver MAX_GENERATION_ATTEMPTS 0 0).1 = none) :
    generate_studio_image_v2 req bc mc s1gen s1ver stage2 judge (Except.ok d) =
      ⟨(generate_v1_internal (Except.ok d) mb mm req.prompt (clamp_quality req.quality "1K")
          (req.details.map (fun x => (x.1, x.2.1))) (req.details.map (fun x => x.2.2))
          req.backgroundDescription req.productDimensions req.orientation req.visibleText
          none "").response,
       MAX_GENERATION_ATTEMPTS, none,
       some (generate_v1_internal (Except.ok d) mb mm req.prompt
          (clamp_quality req.quality "1K")
          (req.details.map (fun x => (x.1, x.2.1))) (req.details.map (fun x => x.2.2))
          req.backgroundDescription req.productDimensions req.orientation req.visibleText
          none "")⟩ ∧
    (generate_studio_image_v2 req bc mc s1gen s1ver stage2 judge
      (Except.ok d)).response.status = 200 ∧
    (generate_studio_image_v2 req bc mc s1gen s1ver stage2 judge
      (Except.ok d)).response.message = some "Success" ∧
    (generate_studio_image_v2 req bc mc s1gen s1ver stage2 judge
      (Except.ok d)).response.image = some d ∧
    (generate_studio_image_v2 req bc mc s1gen s1ver stage2 judge
      (Except.ok d)).response.error = none ∧
    (generate_studio_image_v2 req bc mc s1gen s1ver stage2 judge
      (Except.ok d)).response.warnings = none := by
  have hc : (v2Stage1Loop s1gen s1ver MAX_GENERATION_ATTEMPTS 0 0).2
      = MAX_GENERATION_ATTEMPTS := by
    have h := v2Stage1Loop_none_count s1gen s1ver MAX_GENERATION_ATTEMPTS 0 0 hs1
    simpa using h
  have hmain : generate_studio_image_v2 req bc mc s1gen s1ver stage2 judge (Except.ok d) =
      ⟨(generate_v1_internal (Except.ok d) mb mm req.prompt (clamp_quality req.quality "1K")
          (req.details.map (fun x => (x.1, x.2.1))) (req.details.map (fun x => x.2.2))
          req.backgroundDescription req.productDimensions req.orientation req.visibleText
          none "").response,
       MAX_GENERATION_ATTEMPTS, none,
       some (generate_v1_internal (Except.ok d) mb mm req.prompt
          (clamp_quality req.quality "1K")
          (req.details.map (fun x => (x.1, x.2.1))) (req.details.map (fun x => x.2.2))
          req.backgroundDescription req.productDimensions req.orientation req.visibleText
          none "")⟩ := by
    simp [generate_studio_image_v2, himg, hbid, hbf, hmid, hmf, hs1, hc, resolveMaster]
  refine ⟨hmain, ?_, ?_, ?_, ?_, ?_⟩ <;> rw [hmain] <;> simp [generate_v1_internal]

/-- C8 witness: a concrete request whose Stage-1 verification always fails
degrades to a successful text-background composite. -/
theorem claim_C8_witness :
    generate_studio_image_v2
      { image := some ([0], "image/jpeg"), prompt := "L", quality := "1K",
        lightingPrompt := "", backgroundDescription := "plain oak surface",
        materialScale := "", productDimensions := "", orientation := "angled",
        visibleText := "", backgroundId := "",
        backgroundImageFile := some ([1], "image/jpeg"), cachedBackgroundFile := none,
        masterId := "", masterImageFile := none, masterStyle := "", details := [] }
      [] [] (fun _ => CallResult.response [⟨some [2]⟩]) (fun _ => false)
      (fun _ => Except.error "e") (fun _ => (true, [])) (Except.ok [7]) =
      ⟨(generate_v1_internal (Except.ok [7]) [0] "image/jpeg" "L" (clamp_quality "1K" "1K")
          [] [] "plain oak surface" "" "angled" "" none "").response,
       MAX_GENERATION_ATTEMPTS, none,
       some (generate_v1_internal (Except.ok [7]) [0] "image/jpeg" "L"
          (clamp_quality "1K" "1K") [] [] "plain oak surface" "" "angled" "" none "")⟩ ∧
    (generate_studio_image_v2
      { image := some ([0], "image/jpeg"), prompt := "L", quality := "1K",
        lightingPrompt := "", backgroundDescription := "plain oak surface",
        materialScale := "", productDimensions := "", orientation := "angled",
        visibleText := "", backgroundId := "",
        backgroundImageFile := some ([1], "image/jpeg"), cachedBackgroundFile := none,
        masterId := "", masterImageFile := none, masterStyle := "", details := [] }
      [] [] (fun _ => CallResult.response [⟨some [2]⟩]) (fun _ => false)
      (fun _ => Except.error "e") (fun _ => (true, [])) (Except.ok [7])).response.status
      = 200 ∧
    (generate_studio_image_v2
      { image := some ([0], "image/jpeg"), prompt := "L", quality := "1K",
        lightingPrompt := "", backgroundDescription := "plain oak surface",
        materialScale := "", productDimensions := "", orientation := "angled",
        visibleText := "", backgroundId := "",
        backgroundImageFile := some ([1], "image/jpeg"), cachedBackgroundFile := none,
        masterId := "", masterImageFile := none, masterStyle := "", details := [] }
      [] [] (fun _ => CallResult.response [⟨some [2]⟩]) (fun _ => false)
      (fun _ => Except.error "e") (fun _ => (true, [])) (Except.ok [7])).response.message
      = some "Success" ∧
    (generate_studio_image_v2
      { image := some ([0], "image/jpeg"), prompt := "L", quality := "1K",
        lightingPrompt := "", backgroundDescription := "plain oak surface",
        materialScale := "", productDimensions := "", orientation := "angled",
        visibleText := "", backgroundId := "",
        backgroundImageFile := some ([1], "image/jpeg"), cachedBackgroundFile := none,
        masterId := "", masterImageFile := none, masterStyle := "", details := [] }
      [] [] (fun _ => CallResult.response [⟨some [2]⟩]) (fun _ => false)
      (fun _ => Except.error "e") (fun _ => (true, [])) (Except.ok [7])).response.image
      = some [7] ∧
    (generate_studio_image_v2
      { image := some ([0], "image/jpeg"), prompt := "L", quality := "1K",
        lightingPrompt := "", backgroundDescription := "plain oak surface",
        materialScale := "", productDimensions := "", orientation := "angled",
        visibleText := "", backgroundId := "",
        backgroundImageFile := some ([1], "image/jpeg"), cachedBackgroundFile := none,
        masterId := "", masterImageFile := none, masterStyle := "", details := [] }
      [] [] (fun _ => CallResult.response [⟨some [2]⟩]) (fun _ => false)
      (fun _ => Except.error "e") (fun _ => (true, [])) (Except.ok [7])).response.error
      = none ∧
    (generate_studio_image_v2
      { image := some ([0], "image/jpeg"), prompt := "L", quality := "1K",
        lightingPrompt := "", backgroundDescription := "plain oak surface",
        materialScale := "", productDimensions := "", orientation := "angled",
        visibleText := "", backgroundId := "",
        backgroundImageFile := some ([1], "image/jpeg"), cachedBackgroundFile := none,
        masterId := "", masterImageFile := none, masterStyle := "", details := [] }
      [] [] (fun _ => CallResult.response [⟨some [2]⟩]) (fun _ => false)
      (fun _ => Except.error "e") (fun _ => (true, [])) (Except.ok [7])).response.warnings
      = none :=
  claim_C8_stage1_exhaustion_fallback
    { image := some ([0], "image/jpeg"), prompt := "L", quality := "1K",
      lightingPrompt := "", backgroundDescription := "plain oak surface",
      materialScale := "", productDimensions := "", orientation := "angled",
      visibleText := "", backgroundId := "",
      backgroundImageFile := some ([1], "image/jpeg"), cachedBackgroundFile := none,
      masterId := "", masterImageFile := none, masterStyle := "", details := [] }
    [] [] (fun _ => CallResult.response [⟨some [2]⟩]) (fun _ => false)
    (fun _ => Except.error "e") (fun _ => (true, [])) [7] [0] [1] "image/jpeg" "image/jpeg"
    rfl rfl rfl rfl rfl (by decide)
